import Mathlib

/-!
Verification of the gotsdb two-tier key-value storage engine
(`internal/storage/engine.go`, `hot.go`, `cold.go`).

The Go code is shallowly embedded as pure state-passing functions:

* a Go `map[string]V` becomes an association list `List (String × V)`
  accessed only through `lookupS` / `setS` / `removeS`, which mirror Go map
  indexing, assignment and `delete`;
* the data directory of `ColdStorageService` becomes an explicit list of
  directory entries (`FS`); each entry carries a name, an `isDir` flag and a
  `FileData` content;
* `gob` serialization is modelled as the constructor `FileData.encoded`:
  the spec requires the binary encoding to be "sufficient for exact
  round-trip reconstruction", so a complete, well-formed data file is
  represented by the collection it encodes, while a truncated or otherwise
  invalid file is `FileData.truncated`;
* Go's `errors.New` produces an error value carrying nothing but a message
  string; it is modelled by the single-constructor type `Err.stringError`;
* every Engine operation that can mutate state returns the Go result paired
  with the post-state.
-/

namespace Gotsdb

/-- The repository's `Collection` type: a `map[string]string` from keys to
values (its declaration lives outside the storage package; every use in
`hot.go`/`cold.go`/`engine.go` reads and writes `string` values). -/
abbrev Collection := List (String × String)

/-- Go map indexing `m[k]`: the value stored under `k`, if any. -/
def lookupS {β : Type} : List (String × β) → String → Option β
  | [], _ => none
  | (k2, v2) :: rest, k => if k2 = k then some v2 else lookupS rest k

/-- Go map assignment `m[k] = v`: replace the binding of `k`, or add it. -/
def setS {β : Type} : List (String × β) → String → β → List (String × β)
  | [], k, v => [(k, v)]
  | (k2, v2) :: rest, k, v =>
      if k2 = k then (k, v) :: rest else (k2, v2) :: setS rest k v

/-- Go `delete(m, k)`: remove the binding of `k`. -/
def removeS {β : Type} : List (String × β) → String → List (String × β)
  | [], _ => []
  | (k2, v2) :: rest, k =>
      if k2 = k then removeS rest k else (k2, v2) :: removeS rest k

/-- An error produced by Go's `errors.New(...)`: an untyped value carrying
only its free-text message. Every error in the storage package is built this
way. -/
inductive Err : Type where
  | stringError (msg : String)
deriving DecidableEq

/-- Content of a file in the data directory. `encoded c` is a complete gob
encoding of collection `c` (the spec mandates an exactly round-trippable
encoding); `truncated` is a zero-length or otherwise incomplete file that
does not decode. -/
inductive FileData : Type where
  | encoded (data : Collection)
  | truncated
deriving DecidableEq

/-- One child of the data directory, as `Readdir` reports it. -/
structure DirEntry : Type where
  name : String
  isDir : Bool
  data : FileData
deriving DecidableEq

/-- The data directory: its children, in `Readdir` order. -/
abbrev FS := List DirEntry

/-- First directory entry with the given name (file names are unique on a
real filesystem; the model reads the first match). -/
def findFile : FS → String → Option DirEntry
  | [], _ => none
  | en :: rest, n => if en.name = n then some en else findFile rest n

/-- Overwrite (or create) the regular file named `n` with content `d`. -/
def setFile : FS → String → FileData → FS
  | [], n, d => [⟨n, false, d⟩]
  | en :: rest, n, d =>
      if en.name = n then ⟨n, false, d⟩ :: rest else en :: setFile rest n d

namespace HotStorageService

/-- `hot.go` `CollectionExists`: comma-ok map membership test. -/
def CollectionExists (hot : List (String × Collection)) (id : String) : Bool :=
  (lookupS hot id).isSome

/-- `hot.go` `ReadKey`: value for `key` in hot collection `id`, or an error
for a missing collection / missing key. -/
def ReadKey (hot : List (String × Collection)) (id key : String) :
    Except Err String :=
  match lookupS hot id with
  | some collection =>
      match lookupS collection key with
      | some value => .ok value
      | none => .error (.stringError
          ("No value found for key [" ++ key ++ "] in hot collection ["
            ++ id ++ "]."))
  | none => .error (.stringError
      ("No collection found for collection id [" ++ id ++ "] in hot storage."))

/-- `hot.go` `WriteKey`: `collection[key] = value` when the collection is
hot (the Go map value is mutated in place, so the registry now maps `id` to
the updated collection); error otherwise. Returns the updated registry. -/
def WriteKey (hot : List (String × Collection)) (id key value : String) :
    Except Err (List (String × Collection)) :=
  match lookupS hot id with
  | some collection => .ok (setS hot id (setS collection key value))
  | none => .error (.stringError
      ("No collection found for collection id [" ++ id ++ "] in hot storage."))

/-- `hot.go` `CreateCollection`: register an empty collection, error if one
already exists. Returns the updated registry. -/
def CreateCollection (hot : List (String × Collection)) (id : String) :
    Except Err (List (String × Collection)) :=
  if CollectionExists hot id then
    .error (.stringError
      ("Collection already exists with id [" ++ id ++ "] in hot storage."))
  else
    .ok (setS hot id [])

/-- `hot.go` `DropCollection`: `delete` the collection if present, error
otherwise. Returns the updated registry. -/
def DropCollection (hot : List (String × Collection)) (id : String) :
    Except Err (List (String × Collection)) :=
  if (lookupS hot id).isSome then
    .ok (removeS hot id)
  else
    .error (.stringError
      ("No collection found for collection id [" ++ id ++ "] in hot storage."))

end HotStorageService

namespace ColdStorageService

/-- `fmt.Sprintf("%s.tsdata", id)`: file name backing collection `id`. -/
def fileNameForId (id : String) : String := id ++ ".tsdata"

/-- `filepath.Join(svc.dataDir, fmt.Sprintf("%s.tsdata", id))`. -/
def dataFilePath (dataDir id : String) : String :=
  dataDir ++ "/" ++ fileNameForId id

/-- `cold.go` `CollectionExists`: `os.Stat` the backing file; a missing file
is `ok false`, a directory at the path is an error, a regular file is
`ok true`. -/
def CollectionExists (fs : FS) (dataDir id : String) : Except Err Bool :=
  match findFile fs (fileNameForId id) with
  | none => .ok false
  | some info =>
      if info.isDir then
        .error (.stringError
          ("File [" ++ dataFilePath dataDir id
            ++ "] is a directory when it should be a normal file."))
      else
        .ok true

/-- `cold.go` `ReadFromDiskForId`: open the backing file read-only and
gob-decode it. A missing file fails at `os.OpenFile`; a directory or a
truncated file fails at decode time. -/
def ReadFromDiskForId (fs : FS) (dataDir id : String) : Except Err Collection :=
  match findFile fs (fileNameForId id) with
  | none => .error (.stringError
      ("open " ++ dataFilePath dataDir id ++ ": no such file or directory"))
  | some f =>
      if f.isDir then
        .error (.stringError
          ("read " ++ dataFilePath dataDir id ++ ": is a directory"))
      else
        match f.data with
        | .encoded data => .ok data
        | .truncated => .error (.stringError "EOF")

/-- `cold.go` `FlushToDisk`, intermediate state: the filesystem as visible
after `os.OpenFile(..., O_RDWR|O_CREATE|O_TRUNC, ...)` has created/truncated
the target in place but before `gob.NewEncoder(f).Encode(data)` has written
the new contents. The target file exists and is empty (`truncated`). -/
def FlushToDiskAfterOpen (fs : FS) (id : String) : FS :=
  setFile fs (fileNameForId id) .truncated

/-- `cold.go` `FlushToDisk`, complete operation: open the backing file with
`O_RDWR|O_CREATE|O_TRUNC` (fails if the path is a directory) and gob-encode
the collection over it in place. No temporary file and no rename is
involved: the write happens directly at the target path. -/
def FlushToDisk (fs : FS) (dataDir id : String) (data : Collection) :
    Except Err FS :=
  match findFile fs (fileNameForId id) with
  | some f =>
      if f.isDir then
        .error (.stringError
          ("open " ++ dataFilePath dataDir id ++ ": is a directory"))
      else
        .ok (setFile fs (fileNameForId id) (.encoded data))
  | none => .ok (setFile fs (fileNameForId id) (.encoded data))

/-- ASCII alphanumeric character class `[a-zA-Z0-9]` of the Go regexp. -/
def isAlnumGo (c : Char) : Bool := c.isAlpha || c.isDigit

/-- The literal character sequence `tsdata`. -/
def tsdataChars : List Char := ['t', 's', 'd', 'a', 't', 'a']

/-- Matcher for the suffix of the Go regexp `[a-zA-Z0-9]+.tsdata` once at
least one alphanumeric character has been consumed: either the next
character plays the role of the unescaped `.` (any character) and is
followed by the literal `tsdata`, or it extends the alphanumeric run. -/
def matchTail : List Char → Bool
  | [] => false
  | c :: rest =>
      tsdataChars.isPrefixOf rest || (isAlnumGo c && matchTail rest)

/-- Match of the Go regexp `[a-zA-Z0-9]+.tsdata` anchored at the start of
`cs`: one or more alphanumerics, then any character (the `.` in the pattern
is unescaped), then the literal `tsdata`. -/
def matchHere : List Char → Bool
  | [] => false
  | c :: rest => isAlnumGo c && matchTail rest

/-- `regexp.MatchString("[a-zA-Z0-9]+.tsdata", s)`: the pattern is
unanchored, so it matches if it matches at any position. -/
def regexMatchChars : List Char → Bool
  | [] => false
  | c :: rest => matchHere (c :: rest) || regexMatchChars rest

/-- The separator `.tsdata` of the `strings.Split` call. -/
def sepChars : List Char := ['.', 't', 's', 'd', 'a', 't', 'a']

/-- Characters before the first occurrence of `.tsdata` (the whole input
when the separator does not occur). -/
def takeUntilSep : List Char → List Char
  | [] => []
  | c :: rest =>
      if sepChars.isPrefixOf (c :: rest) then [] else c :: takeUntilSep rest

/-- `strings.Split(name, ".tsdata")[0]`. -/
def firstSplitPiece (s : String) : String := String.mk (takeUntilSep s.toList)

/-- `regexp.MatchString("[a-zA-Z0-9]+.tsdata", s)` on a `String`. -/
def regexMatchString (s : String) : Bool := regexMatchChars s.toList

/-- Loop body of `cold.go` `ListCollections`: keep non-directories whose
name matches the regexp, and record `strings.Split(name, ".tsdata")[0]`. -/
def listNames : FS → List String
  | [] => []
  | child :: rest =>
      if !child.isDir && regexMatchString child.name then
        firstSplitPiece child.name :: listNames rest
      else
        listNames rest

/-- `cold.go` `ListCollections`: read the data directory and filter by the
naming regexp (directory I/O failures are outside the model, so the listing
always succeeds here; the `Except` mirrors the Go signature). -/
def ListCollections (fs : FS) : Except Err (List String) :=
  .ok (listNames fs)

end ColdStorageService

/-- `engine.go` `Engine` together with the observable world it acts on: the
hot registry, the data directory contents, the `autoCreateCollection` flag
and the resolved data directory path. -/
structure EngineState : Type where
  dataDir : String
  hot : List (String × Collection)
  fs : FS
  autoCreateCollection : Bool
deriving DecidableEq

namespace Engine

/-- `engine.go` `CollectionExists`: hot first, then cold. -/
def CollectionExists (e : EngineState) (id : String) : Except Err Bool :=
  if HotStorageService.CollectionExists e.hot id then
    .ok true
  else
    ColdStorageService.CollectionExists e.fs e.dataDir id

/-- `engine.go` `IsHot`: error when the collection is in neither tier,
otherwise report hot-tier membership. -/
def IsHot (e : EngineState) (id : String) : Except Err Bool :=
  match CollectionExists e id with
  | .error err => .error err
  | .ok true => .ok (HotStorageService.CollectionExists e.hot id)
  | .ok false => .error (.stringError
      ("No collection found for collection id [" ++ id
        ++ "] in hot or cold storage"))

/-- `engine.go` `LoadCollection`: read the collection from disk and insert
it into the hot registry (`e.hot.collections[id] = collection`). -/
def LoadCollection (e : EngineState) (id : String) :
    Except Err Unit × EngineState :=
  match ColdStorageService.ReadFromDiskForId e.fs e.dataDir id with
  | .error err => (.error err, e)
  | .ok collection => (.ok (), { e with hot := setS e.hot id collection })

/-- The hot collection registered under `id` (`e.hot.collections[id]`),
meaningful when the collection is hot. -/
def hotGet (hot : List (String × Collection)) (id : String) : Collection :=
  (lookupS hot id).getD []

/-- `engine.go` `FlushCollection`: when hot, persist via
`ColdStorageService.FlushToDisk` and only then drop from the hot registry;
an early return on the flush error leaves the hot tier untouched. When not
hot, fail. -/
def FlushCollection (e : EngineState) (id : String) :
    Except Err Unit × EngineState :=
  if HotStorageService.CollectionExists e.hot id then
    match ColdStorageService.FlushToDisk e.fs e.dataDir id (hotGet e.hot id) with
    | .error err => (.error err, e)
    | .ok fs2 =>
        match HotStorageService.DropCollection e.hot id with
        | .error err => (.error err, { e with fs := fs2 })
        | .ok hot2 => (.ok (), { e with fs := fs2, hot := hot2 })
  else
    (.error (.stringError
      ("No collection found for collection id [" ++ id
        ++ "] in hot or cold storage")), e)

/-- `engine.go` `ReadKey`: serve from the hot tier when resident; otherwise
check the cold tier, load on hit and then serve from the hot copy; error
when the collection is in neither tier. -/
def ReadKey (e : EngineState) (id key : String) :
    Except Err String × EngineState :=
  if HotStorageService.CollectionExists e.hot id then
    (HotStorageService.ReadKey e.hot id key, e)
  else
    match ColdStorageService.CollectionExists e.fs e.dataDir id with
    | .error err => (.error err, e)
    | .ok true =>
        match LoadCollection e id with
        | (.error err, e2) => (.error err, e2)
        | (.ok _, e2) => (HotStorageService.ReadKey e2.hot id key, e2)
    | .ok false =>
        (.error (.stringError
          ("No collection found for collection id [" ++ id
            ++ "] in hot or cold storage")), e)

/-- `engine.go` `LoadCollectionIfNotPresent`: no-op when hot; load when the
cold copy exists; create an empty hot collection when `autoCreateCollection`
is set; otherwise fail. -/
def LoadCollectionIfNotPresent (e : EngineState) (id : String) :
    Except Err Unit × EngineState :=
  if HotStorageService.CollectionExists e.hot id then
    (.ok (), e)
  else
    match ColdStorageService.CollectionExists e.fs e.dataDir id with
    | .error err => (.error err, e)
    | .ok true => LoadCollection e id
    | .ok false =>
        if e.autoCreateCollection then
          match HotStorageService.CreateCollection e.hot id with
          | .error err => (.error err, e)
          | .ok hot2 => (.ok (), { e with hot := hot2 })
        else
          (.error (.stringError
            ("Unable to find a collection to load into hot storage with id ["
              ++ id ++ "].")), e)

/-- `engine.go` `WriteKey`: ensure the collection is hot (auto-create
applies), then delegate to `HotStorageService.WriteKey`. -/
def WriteKey (e : EngineState) (id key value : String) :
    Except Err Unit × EngineState :=
  match LoadCollectionIfNotPresent e id with
  | (.error err, e2) => (.error err, e2)
  | (.ok _, e2) =>
      match HotStorageService.WriteKey e2.hot id key value with
      | .error err => (.error err, e2)
      | .ok hot2 => (.ok (), { e2 with hot := hot2 })

end Engine

/-- The collection that `id` denotes before an operation, read through the
tiers: the hot copy when `id` is hot, else the cold copy when it decodes,
else the empty collection (for an id absent from both tiers). -/
def priorCollection (e : EngineState) (id : String) : Collection :=
  match lookupS e.hot id with
  | some c => c
  | none =>
      match ColdStorageService.ReadFromDiskForId e.fs e.dataDir id with
      | .ok c => c
      | .error _ => []

/-- The value a key reads through the tiers for collection `id`. -/
def tierView (e : EngineState) (id key : String) : Option String :=
  lookupS (priorCollection e id) key

theorem lookupS_setS_self {β : Type} (l : List (String × β)) (k : String)
    (v : β) : lookupS (setS l k v) k = some v := by
  induction l with
  | nil => simp [setS, lookupS]
  | cons p rest ih =>
      obtain ⟨k2, v2⟩ := p
      by_cases h : k2 = k
      · simp [setS, h, lookupS]
      · simp [setS, h, lookupS, ih]

theorem lookupS_setS_ne {β : Type} (l : List (String × β)) (k k2 : String)
    (v : β) (h : k2 ≠ k) : lookupS (setS l k v) k2 = lookupS l k2 := by
  have h2 : k ≠ k2 := Ne.symm h
  induction l with
  | nil => simp [setS, lookupS, h2]
  | cons p rest ih =>
      obtain ⟨k3, v3⟩ := p
      by_cases h3 : k3 = k
      · subst h3
        simp [setS, lookupS, h2]
      · simp only [setS, if_neg h3, lookupS]
        by_cases h4 : k3 = k2
        · simp [h4]
        · simp [h4, ih]

theorem lookupS_removeS_self {β : Type} (l : List (String × β)) (k : String) :
    lookupS (removeS l k) k = none := by
  induction l with
  | nil => simp [removeS, lookupS]
  | cons p rest ih =>
      obtain ⟨k2, v2⟩ := p
      by_cases h : k2 = k
      · simp [removeS, h, ih]
      · simp [removeS, h, lookupS, ih]

theorem lookupS_removeS_ne {β : Type} (l : List (String × β)) (k k2 : String)
    (h : k2 ≠ k) : lookupS (removeS l k) k2 = lookupS l k2 := by
  have h2 : k ≠ k2 := Ne.symm h
  induction l with
  | nil => simp [removeS]
  | cons p rest ih =>
      obtain ⟨k3, v3⟩ := p
      by_cases h3 : k3 = k
      · subst h3
        simp [removeS, lookupS, h2, ih]
      · simp only [removeS, if_neg h3, lookupS]
        by_cases h4 : k3 = k2
        · simp [h4]
        · simp [h4, ih]

theorem setS_of_lookup_eq {β : Type} (l : List (String × β)) (k : String)
    (c : β) (h : lookupS l k = some c) : setS l k c = l := by
  induction l with
  | nil => simp [lookupS] at h
  | cons p rest ih =>
      obtain ⟨k2, v2⟩ := p
      by_cases h2 : k2 = k
      · subst h2
        simp [lookupS] at h
        simp [setS, h]
      · simp [lookupS, h2] at h
        simp [setS, h2, ih h]

theorem findFile_setFile_self (fs : FS) (n : String) (d : FileData) :
    findFile (setFile fs n d) n = some ⟨n, false, d⟩ := by
  induction fs with
  | nil => simp [setFile, findFile]
  | cons en rest ih =>
      by_cases h : en.name = n
      · simp [setFile, h, findFile]
      · simp [setFile, h, findFile, ih]

/-- A hot-tier membership test is exactly a successful registry lookup. -/
theorem hotExists_iff (hot : List (String × Collection)) (id : String) :
    HotStorageService.CollectionExists hot id = true ↔
      ∃ c, lookupS hot id = some c := by
  cases h : lookupS hot id <;>
    simp [HotStorageService.CollectionExists, h]

theorem hotExists_false_iff (hot : List (String × Collection)) (id : String) :
    HotStorageService.CollectionExists hot id = false ↔
      lookupS hot id = none := by
  cases h : lookupS hot id <;>
    simp [HotStorageService.CollectionExists, h]

/-- A cold existence check answering `ok false` means the backing file is
absent from the data directory. -/
theorem coldExists_false (fs : FS) (dataDir id : String)
    (h : ColdStorageService.CollectionExists fs dataDir id = .ok false) :
    findFile fs (ColdStorageService.fileNameForId id) = none := by
  unfold ColdStorageService.CollectionExists at h
  cases hf : findFile fs (ColdStorageService.fileNameForId id) with
  | none => rfl
  | some info =>
      rw [hf] at h
      by_cases hd : info.isDir <;> simp [hd] at h

/-- An absent backing file fails a cold read. -/
theorem coldRead_of_absent (fs : FS) (dataDir id : String)
    (h : findFile fs (ColdStorageService.fileNameForId id) = none) :
    ColdStorageService.ReadFromDiskForId fs dataDir id = .error (.stringError
      ("open " ++ ColdStorageService.dataFilePath dataDir id
        ++ ": no such file or directory")) := by
  unfold ColdStorageService.ReadFromDiskForId
  rw [h]

/-- `LoadCollectionIfNotPresent` on an already-hot collection: no-op. -/
theorem lcinpHot (e : EngineState) (id : String)
    (hh : HotStorageService.CollectionExists e.hot id = true) :
    Engine.LoadCollectionIfNotPresent e id = (.ok (), e) := by
  simp [Engine.LoadCollectionIfNotPresent, hh]

/-- `LoadCollectionIfNotPresent` when the cold existence check fails. -/
theorem lcinpColdErr (e : EngineState) (id : String) (err : Err)
    (hh : HotStorageService.CollectionExists e.hot id = false)
    (hce : ColdStorageService.CollectionExists e.fs e.dataDir id = .error err) :
    Engine.LoadCollectionIfNotPresent e id = (.error err, e) := by
  simp [Engine.LoadCollectionIfNotPresent, hh, hce]

/-- `LoadCollectionIfNotPresent` on a cold hit: delegates to
`LoadCollection`. -/
theorem lcinpColdHit (e : EngineState) (id : String)
    (hh : HotStorageService.CollectionExists e.hot id = false)
    (hce : ColdStorageService.CollectionExists e.fs e.dataDir id = .ok true) :
    Engine.LoadCollectionIfNotPresent e id = Engine.LoadCollection e id := by
  simp [Engine.LoadCollectionIfNotPresent, hh, hce]

/-- `LoadCollectionIfNotPresent` on a wholly absent id with auto-create on:
creates an empty hot collection. -/
theorem lcinpCreate (e : EngineState) (id : String)
    (hh : HotStorageService.CollectionExists e.hot id = false)
    (hce : ColdStorageService.CollectionExists e.fs e.dataDir id = .ok false)
    (ha : e.autoCreateCollection = true) :
    Engine.LoadCollectionIfNotPresent e id =
      (.ok (), { e with hot := setS e.hot id [] }) := by
  simp [Engine.LoadCollectionIfNotPresent, HotStorageService.CreateCollection,
    hh, hce, ha]

/-- `LoadCollectionIfNotPresent` on a wholly absent id with auto-create
off: fails and changes nothing. -/
theorem lcinpNoCreate (e : EngineState) (id : String)
    (hh : HotStorageService.CollectionExists e.hot id = false)
    (hce : ColdStorageService.CollectionExists e.fs e.dataDir id = .ok false)
    (ha : e.autoCreateCollection = false) :
    Engine.LoadCollectionIfNotPresent e id =
      (.error (.stringError
        ("Unable to find a collection to load into hot storage with id ["
          ++ id ++ "].")), e) := by
  simp [Engine.LoadCollectionIfNotPresent, hh, hce, ha]

/-- `LoadCollection` on a readable cold file: inserts the decoded
collection into the hot registry. -/
theorem loadCollectionOk (e : EngineState) (id : String) (c : Collection)
    (hr : ColdStorageService.ReadFromDiskForId e.fs e.dataDir id = .ok c) :
    Engine.LoadCollection e id = (.ok (), { e with hot := setS e.hot id c }) := by
  simp [Engine.LoadCollection, hr]

/-- `LoadCollection` on an unreadable cold file: fails without mutation. -/
theorem loadCollectionErr (e : EngineState) (id : String) (err : Err)
    (hr : ColdStorageService.ReadFromDiskForId e.fs e.dataDir id = .error err) :
    Engine.LoadCollection e id = (.error err, e) := by
  simp [Engine.LoadCollection, hr]

/-- Characterization of a successful `LoadCollectionIfNotPresent`: the cold
tier, configuration and data directory are untouched, and the hot registry
now maps `id` to its tier-resolved prior contents (the hot copy if it was
hot, the decoded cold copy if it was cold-only, the empty collection if it
was freshly auto-created). -/
theorem loadIfNotPresent_ok (e : EngineState) (id : String)
    (h : (Engine.LoadCollectionIfNotPresent e id).1 = .ok ()) :
    (Engine.LoadCollectionIfNotPresent e id).2 =
      { e with hot := setS e.hot id (priorCollection e id) } := by
  by_cases hh : HotStorageService.CollectionExists e.hot id
  · obtain ⟨c, hc⟩ := (hotExists_iff e.hot id).mp hh
    have hpc : priorCollection e id = c := by
      unfold priorCollection
      rw [hc]
    rw [lcinpHot e id hh, hpc, setS_of_lookup_eq e.hot id c hc]
  · rw [Bool.not_eq_true] at hh
    have hnone : lookupS e.hot id = none := (hotExists_false_iff e.hot id).mp hh
    cases hce : ColdStorageService.CollectionExists e.fs e.dataDir id with
    | error err =>
        rw [lcinpColdErr e id err hh hce] at h
        simp at h
    | ok b =>
        cases b with
        | true =>
            rw [lcinpColdHit e id hh hce] at h ⊢
            cases hr : ColdStorageService.ReadFromDiskForId e.fs e.dataDir id with
            | error err =>
                rw [loadCollectionErr e id err hr] at h
                simp at h
            | ok c =>
                have hpc : priorCollection e id = c := by
                  unfold priorCollection
                  rw [hnone, hr]
                rw [loadCollectionOk e id c hr, hpc]
        | false =>
            by_cases ha : e.autoCreateCollection
            · have hpc : priorCollection e id = [] := by
                unfold priorCollection
                rw [hnone,
                  coldRead_of_absent e.fs e.dataDir id
                    (coldExists_false e.fs e.dataDir id hce)]
              rw [lcinpCreate e id hh hce ha, hpc]
            · rw [Bool.not_eq_true] at ha
              rw [lcinpNoCreate e id hh hce ha] at h
              simp at h

theorem setS_setS_self {β : Type} (l : List (String × β)) (k : String)
    (v1 v2 : β) : setS (setS l k v1) k v2 = setS l k v2 := by
  induction l with
  | nil => simp [setS]
  | cons p rest ih =>
      obtain ⟨k2, v3⟩ := p
      by_cases h : k2 = k
      · simp [setS, h]
      · simp [setS, h, ih]

/-- A successful `FlushToDisk` writes the encoded collection over the
backing file in place. -/
theorem flushToDisk_ok_char (fs : FS) (dataDir id : String)
    (data : Collection) (fs2 : FS)
    (h : ColdStorageService.FlushToDisk fs dataDir id data = .ok fs2) :
    fs2 = setFile fs (ColdStorageService.fileNameForId id) (.encoded data) := by
  unfold ColdStorageService.FlushToDisk at h
  cases hf : findFile fs (ColdStorageService.fileNameForId id) with
  | none =>
      rw [hf] at h
      simp at h
      exact h.symm
  | some f =>
      rw [hf] at h
      by_cases hd : f.isDir
      · simp [hd] at h
      · simp [hd] at h
        exact h.symm

/-- C2: flush contract. If the collection is not hot, `FlushCollection`
fails with the not-found error and leaves the whole state (both tiers)
unchanged. If it is hot, the outcome follows the persist step: a failing
`ColdStorageService.FlushToDisk` propagates its error with the state — in
particular the hot tier — unchanged, and a successful persist of the
current hot contents is followed (only then) by eviction from the hot
registry. -/
theorem C2_flush_contract (e : EngineState) (id : String) :
    (HotStorageService.CollectionExists e.hot id = false →
      Engine.FlushCollection e id = (.error (.stringError
        ("No collection found for collection id [" ++ id
          ++ "] in hot or cold storage")), e)) ∧
    (HotStorageService.CollectionExists e.hot id = true →
      (∀ err, ColdStorageService.FlushToDisk e.fs e.dataDir id
          (Engine.hotGet e.hot id) = .error err →
        Engine.FlushCollection e id = (.error err, e)) ∧
      (∀ fs2, ColdStorageService.FlushToDisk e.fs e.dataDir id
          (Engine.hotGet e.hot id) = .ok fs2 →
        Engine.FlushCollection e id =
          (.ok (), { e with fs := fs2, hot := removeS e.hot id }))) := by
  refine ⟨?_, ?_⟩
  · intro hh
    simp [Engine.FlushCollection, hh]
  · intro hh
    have hh2 : (lookupS e.hot id).isSome = true := hh
    refine ⟨?_, ?_⟩
    · intro err hf
      simp [Engine.FlushCollection, hh, hf]
    · intro fs2 hf
      simp [Engine.FlushCollection, hh, hf,
        HotStorageService.DropCollection, hh2]

/-- C2 witness: flushing a hot collection over an empty data directory
persists it and evicts it. -/
theorem C2_flush_contract_witness :
    Engine.FlushCollection ⟨"data", [("a", [("k", "v")])], [], true⟩ "a" =
      (.ok (), ⟨"data", [], [⟨"a.tsdata", false, .encoded [("k", "v")]⟩],
        true⟩) :=
  ((C2_flush_contract ⟨"data", [("a", [("k", "v")])], [], true⟩ "a").2
    rfl).2 [⟨"a.tsdata", false, .encoded [("k", "v")]⟩] rfl

/-- A successful `FlushCollection` of a hot collection evicts it and
overwrites its backing file with the encoding of its hot contents. -/
theorem flush_ok_char (e : EngineState) (id : String)
    (hh : HotStorageService.CollectionExists e.hot id = true)
    (hf : (Engine.FlushCollection e id).1 = .ok ()) :
    (Engine.FlushCollection e id).2 =
      { e with
          fs := setFile e.fs (ColdStorageService.fileNameForId id)
            (.encoded (Engine.hotGet e.hot id)),
          hot := removeS e.hot id } := by
  cases hft : ColdStorageService.FlushToDisk e.fs e.dataDir id
      (Engine.hotGet e.hot id) with
  | error err =>
      rw [((C2_flush_contract e id).2 hh).1 err hft] at hf
      simp at hf
  | ok fs2 =>
      rw [((C2_flush_contract e id).2 hh).2 fs2 hft,
        flushToDisk_ok_char e.fs e.dataDir id (Engine.hotGet e.hot id) fs2 hft]

/-- C3: tier transparency. After a successful flush of a hot collection,
the collection is no longer hot but still exists (in the cold tier); its
backing file decodes to exactly the flush-time hot contents; and a
subsequent `ReadKey` transparently reloads the collection and returns the
value each key had at flush time. -/
theorem C3_tier_transparency (e : EngineState) (id key : String)
    (hh : HotStorageService.CollectionExists e.hot id = true)
    (hf : (Engine.FlushCollection e id).1 = .ok ()) :
    Engine.IsHot (Engine.FlushCollection e id).2 id = .ok false ∧
    Engine.CollectionExists (Engine.FlushCollection e id).2 id = .ok true ∧
    ColdStorageService.ReadFromDiskForId (Engine.FlushCollection e id).2.fs
      (Engine.FlushCollection e id).2.dataDir id =
        .ok (Engine.hotGet e.hot id) ∧
    (∀ v, lookupS (Engine.hotGet e.hot id) key = some v →
      (Engine.ReadKey (Engine.FlushCollection e id).2 id key).1 = .ok v) := by
  rw [flush_ok_char e id hh hf]
  have hnot : HotStorageService.CollectionExists (removeS e.hot id) id = false :=
    (hotExists_false_iff (removeS e.hot id) id).mpr (lookupS_removeS_self e.hot id)
  have hcold : ColdStorageService.CollectionExists
      (setFile e.fs (ColdStorageService.fileNameForId id)
        (.encoded (Engine.hotGet e.hot id))) e.dataDir id = .ok true := by
    unfold ColdStorageService.CollectionExists
    rw [findFile_setFile_self]
    simp
  have hread : ColdStorageService.ReadFromDiskForId
      (setFile e.fs (ColdStorageService.fileNameForId id)
        (.encoded (Engine.hotGet e.hot id))) e.dataDir id =
      .ok (Engine.hotGet e.hot id) := by
    unfold ColdStorageService.ReadFromDiskForId
    rw [findFile_setFile_self]
    simp
  have hex : Engine.CollectionExists
      { e with
          fs := setFile e.fs (ColdStorageService.fileNameForId id)
            (.encoded (Engine.hotGet e.hot id)),
          hot := removeS e.hot id } id = .ok true := by
    simp [Engine.CollectionExists, hnot, hcold]
  refine ⟨?_, hex, hread, ?_⟩
  · simp [Engine.IsHot, hex, hnot]
  · intro v hv
    simp [Engine.ReadKey, hnot, hcold, Engine.LoadCollection, hread,
      HotStorageService.ReadKey, lookupS_setS_self, hv]

/-- C3 witness: flush a one-key hot collection, then read the key back
through the cold tier. -/
theorem C3_tier_transparency_witness :
    (Engine.ReadKey
      (Engine.FlushCollection ⟨"data", [("c", [("k", "v")])], [], true⟩
        "c").2 "c" "k").1 = .ok "v" :=
  (C3_tier_transparency ⟨"data", [("c", [("k", "v")])], [], true⟩ "c" "k"
    rfl rfl).2.2.2 "v" rfl

/-- Characterization of a successful `Engine.WriteKey`: the final state is
the original one with `id` made hot at its tier-resolved prior contents and
then updated at `key`; the cold tier and configuration are untouched. -/
theorem writeKey_ok_char (e : EngineState) (id key value : String)
    (h : (Engine.WriteKey e id key value).1 = .ok ()) :
    (Engine.WriteKey e id key value).2 =
      { e with hot := (setS (setS e.hot id (priorCollection e id)) id
          (setS (priorCollection e id) key value)) } := by
  rcases hp : Engine.LoadCollectionIfNotPresent e id with ⟨r, e2⟩
  cases r with
  | error err =>
      have hw : Engine.WriteKey e id key value = (.error err, e2) := by
        simp [Engine.WriteKey, hp]
      rw [hw] at h
      simp at h
  | ok u =>
      have h1 : (Engine.LoadCollectionIfNotPresent e id).1 = .ok () := by
        rw [hp]
      have he2 : e2 = { e with hot := setS e.hot id (priorCollection e id) } := by
        have hc := loadIfNotPresent_ok e id h1
        rw [hp] at hc
        exact hc
      have hlk : lookupS e2.hot id = some (priorCollection e id) := by
        rw [he2]
        exact lookupS_setS_self e.hot id (priorCollection e id)
      have hhw : HotStorageService.WriteKey e2.hot id key value =
          .ok (setS e2.hot id (setS (priorCollection e id) key value)) := by
        unfold HotStorageService.WriteKey
        rw [hlk]
      have hw : Engine.WriteKey e id key value =
          (.ok (), { e2 with
            hot := setS e2.hot id (setS (priorCollection e id) key value) }) := by
        simp [Engine.WriteKey, hp, hhw]
      rw [hw, he2]

/-- C1: round-trip. With auto-create enabled, a `WriteKey(c,k,v)` that
succeeds, whatever tier membership `c` had before (hot, cold-only or
absent), is followed by a `ReadKey(c,k)` that returns exactly `v`. -/
theorem C1_round_trip (e : EngineState) (id key value : String)
    (_hauto : e.autoCreateCollection = true)
    (h : (Engine.WriteKey e id key value).1 = .ok ()) :
    (Engine.ReadKey (Engine.WriteKey e id key value).2 id key).1 =
      .ok value := by
  rw [writeKey_ok_char e id key value h]
  have hlk : lookupS (setS (setS e.hot id (priorCollection e id)) id
      (setS (priorCollection e id) key value)) id =
      some (setS (priorCollection e id) key value) :=
    lookupS_setS_self _ _ _
  simp [Engine.ReadKey, HotStorageService.CollectionExists,
    HotStorageService.ReadKey, hlk, lookupS_setS_self]

/-- C1 witness: write into a fresh engine and read the value back. -/
theorem C1_round_trip_witness :
    (Engine.ReadKey
      (Engine.WriteKey ⟨"data", [], [], true⟩ "c" "k" "v").2 "c" "k").1 =
      .ok "v" :=
  C1_round_trip ⟨"data", [], [], true⟩ "c" "k" "v" rfl rfl

/-- C4: auto-create gating. Against an id absent from both tiers, a write
with `autoCreateCollection` off fails with the not-found error and leaves
the entire state (both tiers) unchanged; with the flag on, the same write
succeeds, touches no cold file, and leaves the collection hot, holding
exactly `key ↦ value`. -/
theorem C4_autocreate_gating (e : EngineState) (id key value : String)
    (hh : HotStorageService.CollectionExists e.hot id = false)
    (hce : ColdStorageService.CollectionExists e.fs e.dataDir id = .ok false) :
    (e.autoCreateCollection = false →
      Engine.WriteKey e id key value = (.error (.stringError
        ("Unable to find a collection to load into hot storage with id ["
          ++ id ++ "].")), e)) ∧
    (e.autoCreateCollection = true →
      Engine.WriteKey e id key value =
        (.ok (), { e with hot := setS e.hot id [(key, value)] }) ∧
      HotStorageService.CollectionExists
        (Engine.WriteKey e id key value).2.hot id = true ∧
      HotStorageService.ReadKey
        (Engine.WriteKey e id key value).2.hot id key = .ok value) := by
  constructor
  · intro ha
    simp [Engine.WriteKey, lcinpNoCreate e id hh hce ha]
  · intro ha
    have hmain : Engine.WriteKey e id key value =
        (.ok (), { e with hot := setS e.hot id [(key, value)] }) := by
      have hwk : HotStorageService.WriteKey (setS e.hot id []) id key value =
          .ok (setS (setS e.hot id []) id (setS [] key value)) := by
        unfold HotStorageService.WriteKey
        rw [lookupS_setS_self]
      simp [Engine.WriteKey, lcinpCreate e id hh hce ha, hwk,
        setS_setS_self, setS]
    refine ⟨hmain, ?_, ?_⟩
    · rw [hmain]
      exact (hotExists_iff _ id).mpr ⟨[(key, value)], lookupS_setS_self _ _ _⟩
    · rw [hmain]
      simp [HotStorageService.ReadKey, lookupS_setS_self, lookupS]

/-- C4 witness: both flag values at a concrete absent id. -/
theorem C4_autocreate_gating_witness :
    Engine.WriteKey ⟨"data", [], [], false⟩ "c" "k" "v" =
      (.error (.stringError
        "Unable to find a collection to load into hot storage with id [c]."),
        ⟨"data", [], [], false⟩) ∧
    Engine.WriteKey ⟨"data", [], [], true⟩ "c" "k" "v" =
      (.ok (), ⟨"data", [("c", [("k", "v")])], [], true⟩) :=
  ⟨(C4_autocreate_gating ⟨"data", [], [], false⟩ "c" "k" "v" rfl rfl).1 rfl,
    ((C4_autocreate_gating ⟨"data", [], [], true⟩ "c" "k" "v" rfl rfl).2
      rfl).1⟩

/-- C5: reads never auto-create. A `ReadKey` against an id absent from both
tiers fails with the not-found error and changes nothing, whatever the
`autoCreateCollection` flag holds (the definition never consults it); and a
`ReadKey` against a cold-only id first loads the decoded collection into
the hot registry and then serves the key from that hot copy. -/
theorem C5_reads_no_autocreate (e : EngineState) (id key : String) :
    (HotStorageService.CollectionExists e.hot id = false →
      ColdStorageService.CollectionExists e.fs e.dataDir id = .ok false →
      Engine.ReadKey e id key = (.error (.stringError
        ("No collection found for collection id [" ++ id
          ++ "] in hot or cold storage")), e)) ∧
    (∀ c, HotStorageService.CollectionExists e.hot id = false →
      ColdStorageService.CollectionExists e.fs e.dataDir id = .ok true →
      ColdStorageService.ReadFromDiskForId e.fs e.dataDir id = .ok c →
      Engine.ReadKey e id key =
        (HotStorageService.ReadKey (setS e.hot id c) id key,
          { e with hot := setS e.hot id c })) := by
  constructor
  · intro hh hce
    simp [Engine.ReadKey, hh, hce]
  · intro c hh hce hr
    simp [Engine.ReadKey, hh, hce, Engine.LoadCollection, hr]

/-- C5 witness: the absent case on a fresh engine with auto-create on, and
the cold-only case with auto-create off. -/
theorem C5_reads_no_autocreate_witness :
    Engine.ReadKey ⟨"data", [], [], true⟩ "c" "k" =
      (.error (.stringError
        "No collection found for collection id [c] in hot or cold storage"),
        ⟨"data", [], [], true⟩) ∧
    Engine.ReadKey
      ⟨"data", [], [⟨"c.tsdata", false, .encoded [("k", "v")]⟩], false⟩
        "c" "k" =
      (.ok "v", ⟨"data", [("c", [("k", "v")])],
        [⟨"c.tsdata", false, .encoded [("k", "v")]⟩], false⟩) :=
  ⟨(C5_reads_no_autocreate ⟨"data", [], [], true⟩ "c" "k").1 rfl rfl,
    (C5_reads_no_autocreate
      ⟨"data", [], [⟨"c.tsdata", false, .encoded [("k", "v")]⟩], false⟩
      "c" "k").2 [("k", "v")] rfl rfl rfl⟩

/-- C10: write frame property. A successful `WriteKey(c,k,v)` leaves every
cold-tier file unchanged (including the one backing `c`), leaves every
other collection's hot registration unchanged, and within `c` maps every
key other than `k` to the value it previously read through the tiers (hot
copy if `c` was hot, else the cold copy, else nothing). -/
theorem C10_write_frame (e : EngineState) (id key value : String)
    (h : (Engine.WriteKey e id key value).1 = .ok ()) :
    (Engine.WriteKey e id key value).2.fs = e.fs ∧
    (∀ id2, id2 ≠ id →
      lookupS (Engine.WriteKey e id key value).2.hot id2 =
        lookupS e.hot id2) ∧
    (∀ key2, key2 ≠ key →
      tierView (Engine.WriteKey e id key value).2 id key2 =
        tierView e id key2) := by
  rw [writeKey_ok_char e id key value h]
  refine ⟨rfl, ?_, ?_⟩
  · intro id2 hne
    rw [lookupS_setS_ne _ _ _ _ hne, lookupS_setS_ne _ _ _ _ hne]
  · intro key2 hne
    have hp : priorCollection
        { e with hot := (setS (setS e.hot id (priorCollection e id)) id
            (setS (priorCollection e id) key value)) } id =
        setS (priorCollection e id) key value := by
      unfold priorCollection
      simp [lookupS_setS_self]
    unfold tierView
    rw [hp, lookupS_setS_ne _ _ _ _ hne]

/-- C10 witness: a write to a fresh id leaves an unrelated hot collection,
an unrelated cold file and the other keys of its own collection alone. -/
theorem C10_write_frame_witness :
    (Engine.WriteKey ⟨"data", [("d", [("x", "1")])],
        [⟨"f.tsdata", false, .encoded []⟩], true⟩ "c" "k" "v").2.fs =
      [⟨"f.tsdata", false, .encoded []⟩] ∧
    lookupS (Engine.WriteKey ⟨"data", [("d", [("x", "1")])],
        [⟨"f.tsdata", false, .encoded []⟩], true⟩ "c" "k" "v").2.hot "d" =
      some [("x", "1")] ∧
    tierView (Engine.WriteKey ⟨"data", [("d", [("x", "1")])],
        [⟨"f.tsdata", false, .encoded []⟩], true⟩ "c" "k" "v").2 "c" "z" =
      none :=
  ⟨(C10_write_frame ⟨"data", [("d", [("x", "1")])],
      [⟨"f.tsdata", false, .encoded []⟩], true⟩ "c" "k" "v" rfl).1,
    (C10_write_frame ⟨"data", [("d", [("x", "1")])],
      [⟨"f.tsdata", false, .encoded []⟩], true⟩ "c" "k" "v" rfl).2.1 "d"
      (by decide),
    (C10_write_frame ⟨"data", [("d", [("x", "1")])],
      [⟨"f.tsdata", false, .encoded []⟩], true⟩ "c" "k" "v" rfl).2.2 "z"
      (by decide)⟩

/-- C7: the claim says `FlushToDisk` writes to a temporary path and
atomically renames it over the target, so a concurrent or crash-interrupted
reader never observes an incomplete file. The code instead opens the target
itself with `O_TRUNC` and encodes over it in place. Evaluated at a concrete
data directory holding a complete prior version, the state after the open
and before the encode exposes the target as a truncated file that is
neither the prior complete version nor the new complete version — and the
full operation confirms the write lands at the target path directly (no
temporary file ever appears in the directory model). -/
theorem C7_truncate_in_place :
    ColdStorageService.FlushToDiskAfterOpen
        [⟨"c.tsdata", false, .encoded [("k", "old")]⟩] "c" =
      [⟨"c.tsdata", false, .truncated⟩] ∧
    findFile [⟨"c.tsdata", false, .truncated⟩] "c.tsdata" =
      some ⟨"c.tsdata", false, .truncated⟩ ∧
    FileData.truncated ≠ FileData.encoded [("k", "old")] ∧
    FileData.truncated ≠ FileData.encoded [("k", "new")] ∧
    ColdStorageService.ReadFromDiskForId [⟨"c.tsdata", false, .truncated⟩]
        "data" "c" = .error (.stringError "EOF") ∧
    ColdStorageService.FlushToDisk
        [⟨"c.tsdata", false, .encoded [("k", "old")]⟩] "data" "c"
        [("k", "new")] =
      .ok [⟨"c.tsdata", false, .encoded [("k", "new")]⟩] :=
  ⟨rfl, rfl, by simp, by simp, rfl, rfl⟩

/-- C8: the claim says `ListCollections` returns exactly the distinct ids
`c` with a regular file named `c.tsdata` in the data directory. The code
filters with the unanchored regexp `[a-zA-Z0-9]+.tsdata`, whose `.` is an
unescaped any-character, and then takes the text before the first
`.tsdata`. Evaluated at concrete directories: the single regular file
`a.tsdatab` (no `a.tsdata` exists) yields the spurious id `a`; the pair
`a.tsdata`, `a.tsdata.bak` yields `a` twice; and the conforming file
`-.tsdata` (the spec treats a collection id as an opaque non-empty string)
is omitted because its id has no alphanumeric character. -/
theorem C8_listing_mismatch :
    ColdStorageService.ListCollections [⟨"a.tsdatab", false, .truncated⟩] =
      .ok ["a"] ∧
    findFile [⟨"a.tsdatab", false, .truncated⟩]
      (ColdStorageService.fileNameForId "a") = none ∧
    ColdStorageService.ListCollections
        [⟨"a.tsdata", false, .encoded []⟩,
          ⟨"a.tsdata.bak", false, .truncated⟩] =
      .ok ["a", "a"] ∧
    ColdStorageService.ListCollections
        [⟨"-.tsdata", false, .encoded []⟩] = .ok [] ∧
    findFile [⟨"-.tsdata", false, .encoded []⟩]
      (ColdStorageService.fileNameForId "-") =
        some ⟨"-.tsdata", false, .encoded []⟩ :=
  ⟨rfl, rfl, rfl, rfl, rfl⟩

/-- C9: the claim says `HotStorageService.ReadKey` fails with two
programmatically distinguishable error kinds (collection-scope vs key-scope
not-found) so callers can branch without parsing message text. The code
builds both failures with `errors.New(fmt.Sprintf(...))`: evaluated at a
concrete registry, both results are bare `stringError` values, and every
error value the storage package can produce carries nothing beyond its
free-text message — the message is the only discriminator available. -/
theorem C9_error_kinds :
    HotStorageService.ReadKey [("c", [("k", "v")])] "absent" "k" =
      .error (.stringError
        "No collection found for collection id [absent] in hot storage.") ∧
    HotStorageService.ReadKey [("c", [("k", "v")])] "c" "missing" =
      .error (.stringError
        "No value found for key [missing] in hot collection [c].") ∧
    ∀ err : Err, ∃ msg : String, err = .stringError msg := by
  refine ⟨rfl, rfl, ?_⟩
  intro err
  cases err with
  | stringError m => exact ⟨m, rfl⟩

end Gotsdb
